import Mathlib

/-!
Verification of the Galooli → Gundi integration connector
(repository `gundi-integration-galooli`).

This file is a shallow embedding of the three action modules of the
repository — `app/actions/utils.py`, `app/actions/client.py` and
`app/actions/handlers.py` — together with theorems settling the frozen
claims about the specification.

Modelling conventions:
* Python record cells are modelled by `Value` (None / str / number);
  numbers are modelled as integers — Python truthiness of a number is
  "nonzero", which `Value.truthy` mirrors.
* Naive datetimes are calendar tuples (`NaiveDateTime`); `pytz.FixedOffset`
  localization does not shift the fields, it only selects the offset suffix
  that `datetime.isoformat` renders, which is how `isoformat` is modelled.
* Fallible Python code is modelled with `Except`: an exception raised by a
  function is an `Except.error` value, re-raising is propagation of that
  value, and a `try/except` block is a `match` on it.
* The external collaborators (the HTTP transport, the Gundi sink, the
  key-value state store) are modelled as explicit parameters / explicit
  state, following the capability shapes in the specification §6.
-/

deriving instance DecidableEq for Except

/-- A Python value as it occurs in a Galooli record cell: `None`, a string,
or a number.  Numbers are modelled as integers; every property proved here
depends on a number only through its truthiness (nonzero) and its `str()`
rendering, for which integers are faithful. -/
inductive Value where
  | vNone
  | vStr (s : String)
  | vInt (n : Int)
deriving DecidableEq

/-- Python truthiness of a record cell: `None`, the empty string and the
number `0` are falsy; everything else is truthy. -/
def Value.truthy : Value → Bool
  | .vNone => false
  | .vStr s => decide (s ≠ "")
  | .vInt n => decide (n ≠ 0)

/-- How Python's `csv.writer` renders one cell: `str(x)`, except that
`None` is written as the empty string. -/
def Value.csvCell : Value → String
  | .vNone => ""
  | .vStr s => s
  | .vInt n => toString n

/-- The CSV write / re-parse round trip that both `client.get_observations`
and `action_pull_observations` perform on the vendor `DataSet` before
per-record conversion (`csv.writer.writerows` followed by `seq.csv`): every
cell comes back as a string. -/
def csvRoundTrip (dataset : List (List Value)) : List (List Value) :=
  dataset.map (fun row => row.map (fun v => Value.vStr v.csvCell))

/-! ## Datetimes

`NaiveDateTime` models a timezone-naive `datetime.datetime`.  The epoch
conversions implement the standard proleptic-Gregorian civil-date algorithm
and are used only for `now - timedelta(hours=h)`; they are valid for dates
from 1970 on, which covers every instant the connector handles. -/

/-- A timezone-naive `datetime.datetime` (year, month, day, hour, minute,
second). -/
structure NaiveDateTime where
  year : Nat
  month : Nat
  day : Nat
  hour : Nat
  minute : Nat
  second : Nat
deriving DecidableEq

/-- Zero-pad a number to two digits, as `datetime` formatting does. -/
def pad2 (n : Nat) : String :=
  if n < 10 then "0" ++ toString n else toString n

/-- Zero-pad a year to four digits, as `datetime` formatting does. -/
def pad4 (n : Nat) : String :=
  if n < 10 then "000" ++ toString n
  else if n < 100 then "00" ++ toString n
  else if n < 1000 then "0" ++ toString n
  else toString n

/-- The UTC-offset suffix that `datetime.isoformat` renders for a
`pytz.FixedOffset(m)` timezone: sign, hours and minutes of `m` minutes. -/
def renderOffset (m : Int) : String :=
  let sign := if m < 0 then "-" else "+"
  let a := m.natAbs
  sign ++ pad2 (a / 60) ++ ":" ++ pad2 (a % 60)

/-- The local (offset-free) part of `datetime.isoformat`:
`YYYY-MM-DDTHH:MM:SS`. -/
def isoLocalPart (dt : NaiveDateTime) : String :=
  pad4 dt.year ++ "-" ++ pad2 dt.month ++ "-" ++ pad2 dt.day ++ "T" ++
    pad2 dt.hour ++ ":" ++ pad2 dt.minute ++ ":" ++ pad2 dt.second

/-- `reports_timezone.localize(dt).isoformat()` for
`reports_timezone = pytz.FixedOffset(offsetMinutes)`: localizing attaches
the fixed offset without shifting the fields, and `isoformat` renders the
fields followed by the offset. -/
def isoformat (dt : NaiveDateTime) (offsetMinutes : Int) : String :=
  isoLocalPart dt ++ renderOffset offsetMinutes

/-- `datetime.strftime(dt, '%Y-%m-%d %H:%M:%S')` — the vendor wire format,
with no timezone suffix. -/
def strftimeYmdHms (dt : NaiveDateTime) : String :=
  pad4 dt.year ++ "-" ++ pad2 dt.month ++ "-" ++ pad2 dt.day ++ " " ++
    pad2 dt.hour ++ ":" ++ pad2 dt.minute ++ ":" ++ pad2 dt.second

/-- Days since 1970-01-01 of a civil date (valid for dates from 1970 on). -/
def daysFromCivil (y m d : Nat) : Nat :=
  let y2 := if m ≤ 2 then y - 1 else y
  let era := y2 / 400
  let yoe := y2 - era * 400
  let mp := if m > 2 then m - 3 else m + 9
  let doy := (153 * mp + 2) / 5 + (d - 1)
  let doe := yoe * 365 + yoe / 4 - yoe / 100 + doy
  era * 146097 + doe - 719468

/-- Civil date (year, month, day) of a count of days since 1970-01-01. -/
def civilFromDays (z0 : Nat) : Nat × Nat × Nat :=
  let z := z0 + 719468
  let era := z / 146097
  let doe := z - era * 146097
  let yoe := (doe - doe / 1460 + doe / 36524 - doe / 146096) / 365
  let y := yoe + era * 400
  let doy := doe - (365 * yoe + yoe / 4 - yoe / 100)
  let mp := (5 * doy + 2) / 153
  let d := doy - (153 * mp + 2) / 5 + 1
  let m := if mp < 10 then mp + 3 else mp - 9
  (if m ≤ 2 then y + 1 else y, m, d)

/-- Seconds since the epoch of a naive datetime (dates from 1970 on). -/
def toEpochSeconds (dt : NaiveDateTime) : Nat :=
  86400 * daysFromCivil dt.year dt.month dt.day +
    3600 * dt.hour + 60 * dt.minute + dt.second

/-- The naive datetime of a count of seconds since the epoch. -/
def ofEpochSeconds (z : Nat) : NaiveDateTime :=
  let c := civilFromDays (z / 86400)
  let rem := z % 86400
  ⟨c.1, c.2.1, c.2.2, rem / 3600, rem % 3600 / 60, rem % 60⟩

/-- `dt - timedelta(hours=h)`. -/
def subHours (dt : NaiveDateTime) (h : Nat) : NaiveDateTime :=
  ofEpochSeconds (toEpochSeconds dt - 3600 * h)

/-- Split a character list on a separator character (the pieces, in order,
separators dropped). -/
def splitOnCharGo (sep : Char) : List Char → List Char → List (List Char)
  | [], acc => [acc.reverse]
  | c :: rest, acc =>
      if c = sep then acc.reverse :: splitOnCharGo sep rest []
      else splitOnCharGo sep rest (c :: acc)

/-- Split a character list on a separator character. -/
def splitOnChar (sep : Char) (l : List Char) : List (List Char) :=
  splitOnCharGo sep l []

/-- Read a nonempty all-digit character list as a natural number. -/
def parseNatDigitsGo : List Char → Nat → Option Nat
  | [], acc => some acc
  | c :: rest, acc =>
      if c.isDigit then parseNatDigitsGo rest (acc * 10 + (c.toNat - 48))
      else none

/-- Read a character list as a natural number; fails on the empty list and
on any non-digit character. -/
def parseNatDigits : List Char → Option Nat
  | [] => none
  | l => parseNatDigitsGo l 0

/-- `dateparser.parse`, modelled on the vendor wire format
`YYYY-MM-DD HH:MM:SS` (the only shape of timestamp the vendor emits and
the tests exercise); returns `none` where `dateparser` returns `None`. -/
def parseDateTime (s : String) : Option NaiveDateTime :=
  match splitOnChar ' ' s.data with
  | [d, t] =>
    match splitOnChar '-' d, splitOnChar ':' t with
    | [ys, ms, ds], [hs, mis, ss] =>
      match parseNatDigits ys, parseNatDigits ms, parseNatDigits ds,
            parseNatDigits hs, parseNatDigits mis, parseNatDigits ss with
      | some y, some mo, some da, some h, some mi, some se =>
          some ⟨y, mo, da, h, mi, se⟩
      | _, _, _, _, _, _ => none
    | _, _ => none
  | _ => none

example : strftimeYmdHms (subHours ⟨2025, 6, 27, 2, 0, 0⟩ 4) = "2025-06-26 22:00:00" := by decide

example : parseDateTime "2023-01-01 10:00:00" = some ⟨2023, 1, 1, 10, 0, 0⟩ := by decide

example : isoformat ⟨2023, 1, 1, 10, 0, 0⟩ 0 = "2023-01-01T10:00:00+00:00" := by decide

example : isoformat ⟨2023, 1, 1, 10, 0, 0⟩ (-300) = "2023-01-01T10:00:00-05:00" := by decide

/-! ## Record conversion

Two variants of `convert_to_er_observation` exist in the repository: the
9-field one in `app/actions/utils.py` (used by `action_pull_observations`)
and the 15-field one in `app/actions/client.py` (used by
`client.get_observations`, with a `status == 'Moving'` gate). -/

/-- An exception escaping record conversion: the `ValueError` of a failed
tuple unpacking (`utils.py` line 15), the `IndexError` of an out-of-range
subscript (`client.py` lines 46–59), or the error raised when
`dateparser.parse` is fed a non-string / returns `None` and the result is
localized (`TypeError` / `AttributeError`). -/
inductive ConvertError where
  | valueError
  | indexError
  | badTimestamp
deriving DecidableEq

/-- `reports_timezone.localize(dateparser.parse(time))` up to the choice
of offset: parse the time cell.  A non-string argument makes
`dateparser.parse` raise `TypeError`; an unparsable string makes it return
`None`, on which `.localize` raises — both are modelled by
`badTimestamp`. -/
def parseTimeValue : Value → Except ConvertError NaiveDateTime
  | .vStr ts =>
    match parseDateTime ts with
    | some dt => .ok dt
    | none => .error .badTimestamp
  | _ => .error .badTimestamp

/-- The `location` dict of an observation. -/
structure Location where
  lat : Value
  lon : Value
deriving DecidableEq

/-- The `additional` dict built by `utils.convert_to_er_observation`. -/
structure ErAdditional where
  sensor_id : Value
  org_name : Value
  status : Value
  distance : Value
  speed : Value
  subject_groups : List String
deriving DecidableEq

/-- The observation dict built by `utils.convert_to_er_observation`. -/
structure ErObservation where
  source : Value
  source_name : Value
  subject_type : String
  type : String
  recorded_at : String
  location : Location
  additional : ErAdditional
deriving DecidableEq

/-- The `additional` dict built by `client.convert_to_er_observation`. -/
structure ClientAdditional where
  sensor_id : Value
  asset_model : Value
  org_name : Value
  status : Value
  distance : Value
  speed : Value
  hdop : Value
  altitude : Value
  heading : Value
  description : Value
deriving DecidableEq

/-- The observation dict built by `client.convert_to_er_observation`. -/
structure ClientObservation where
  manufacturer_id : Value
  subject_name : Value
  subject_groups : List String
  subject_subtype : String
  recorded_at : String
  location : Location
  additional : ClientAdditional
deriving DecidableEq

namespace Utils

/-- `app/actions/utils.py`, `convert_to_er_observation` (lines 10–44):
unpack the 9-field Galooli record (a `ValueError` from a wrong arity is
logged and re-raised), then produce an observation only when `latitude`,
`longitude`, `time` and `sensor_id` are all truthy, else return `None`.
`tzMinutes` is the `pytz.FixedOffset` minute count of `reports_timezone`. -/
def convert_to_er_observation (galooli_record : List Value) (tzMinutes : Int) :
    Except ConvertError (Option ErObservation) :=
  match galooli_record with
  | [sensor_id, subject_name, org_name, time, status, latitude, longitude,
     distance, speed] =>
    if latitude.truthy && longitude.truthy && time.truthy && sensor_id.truthy then
      match parseTimeValue time with
      | .ok dt =>
          .ok (some
            { source := sensor_id
              source_name := subject_name
              subject_type := "security_vehicle"
              type := "tracking-device"
              recorded_at := isoformat dt tzMinutes
              location := { lat := latitude, lon := longitude }
              additional :=
                { sensor_id := sensor_id
                  org_name := org_name
                  status := status
                  distance := distance
                  speed := speed
                  subject_groups := ["Vehicles"] } })
      | .error e => .error e
    else
      .ok none
  | _ => .error .valueError

/-! ### The deduplication filter

`filter_observations_by_device_status` reads and writes the integration
state store.  The store is external to the repository (spec §6: a
key-value capability `get/set(integrationId, actionId, sourceId)`); within
one pull cycle the integration id and action id are fixed, so the store is
modelled as an association list keyed by `source_id`, threaded explicitly
through the filter. -/

/-- The per-device state dict written by the filter: `{"status": status}`. -/
structure DeviceStatusState where
  status : Value
deriving DecidableEq

/-- The device-state store for one `(integration_id, "pull_observations")`
pair, keyed by `source_id`. -/
abbrev DeviceStore := List (Value × DeviceStatusState)

/-- `state_manager.get_state(...)`: `none` models a falsy (absent) state. -/
def lookupState : DeviceStore → Value → Option DeviceStatusState
  | [], _ => none
  | (k, st) :: rest, key => if k = key then some st else lookupState rest key

/-- `state_manager.set_state(...)`: overwrite the entry for the key. -/
def setState (store : DeviceStore) (key : Value) (st : DeviceStatusState) :
    DeviceStore :=
  (key, st) :: store

/-- The loop body of `filter_observations_by_device_status` (lines 65–87):
per observation, read the device state; if it exists and its `status`
equals the incoming status, skip the observation (no state write);
otherwise write `{"status": status}` and append the observation. -/
def filterGo (store : DeviceStore) :
    List ErObservation → List ErObservation × DeviceStore
  | [] => ([], store)
  | obs :: rest =>
    match lookupState store obs.source with
    | some device_state =>
      if device_state.status = obs.additional.status then
        filterGo store rest
      else
        let store2 := setState store obs.source ⟨obs.additional.status⟩
        let fs := filterGo store2 rest
        (obs :: fs.1, fs.2)
    | none =>
        let store2 := setState store obs.source ⟨obs.additional.status⟩
        let fs := filterGo store2 rest
        (obs :: fs.1, fs.2)

/-- `app/actions/utils.py`, `filter_observations_by_device_status`
(lines 46–87): early-return `[]` on an empty input, else run the loop. -/
def filter_observations_by_device_status (store : DeviceStore)
    (observations : List ErObservation) : List ErObservation × DeviceStore :=
  if observations.isEmpty then ([], store)
  else filterGo store observations

/-- ASCII lower-casing of one character (`str.lower` on the ASCII statuses
the vendor emits). -/
def lowerChar (c : Char) : Char :=
  if 65 ≤ c.toNat && c.toNat ≤ 90 then Char.ofNat (c.toNat + 32) else c

/-- ASCII lower-casing of a string. -/
def lowerString (s : String) : String :=
  ⟨s.data.map lowerChar⟩

/-- The specification's "quiet class" of statuses (canonical example
`"off"`, case-insensitive), used to state the claims about quiet-period
handling. -/
def isQuietStatus : Value → Bool
  | .vStr s => decide (lowerString s = "off")
  | _ => false

end Utils

namespace Client

/-- The fixed field-selection string of `app/actions/client.py` (lines
17–18). -/
def REQUESTED_PROPERTIES : String :=
  "u.unit_id,u.unit_name,a.model,o.name,ac.gps_time,ac.status,ac.latitude,ac.longitude,ac.current_odometer_reading,ac.speed,ac.hdop,ac.altitude,ac.heading,u.description"

/-- An exception surfaced by `client.get_observations`:
`GalooliInvalidUserCredentialsException (code, message)` (default code
1000), `GalooliTooManyRequestsException` (default code 1101),
`GalooliGeneralErrorException` (default code −1), a re-raised
`httpx.HTTPStatusError`, or a record-conversion error escaping the
success path. -/
inductive ClientError where
  | invalidUserCredentials (code : Int) (message : Option String)
  | tooManyRequests (code : Int) (message : Option String)
  | generalError (code : Int) (message : Option String)
  | httpStatusError (status : Nat)
  | convertError (e : ConvertError)
deriving DecidableEq

/-- The `CommonResult` object of the vendor envelope. -/
structure CommonResult where
  resultCode : Int
  resultDescription : Option String
  rejectReason : Option String
  dataSet : List (List Value)
deriving DecidableEq

/-- The vendor response envelope
`{CommonResult: {...}, MaxGmtUpdateTime: ...}`. -/
structure Envelope where
  commonResult : CommonResult
  maxGmtUpdateTime : String
deriving DecidableEq

/-- `parsed_response['CommonResult'].get('ResultDescription',
parsed_response['CommonResult'].get('RejectReason'))` (client.py line
121). -/
def resultDescriptionOrReject (cr : CommonResult) : Option String :=
  match cr.resultDescription with
  | some d => some d
  | none => cr.rejectReason

/-- `app/actions/client.py`, `convert_to_er_observation` (lines 45–94):
subscript the 15 schema positions `r[0]`–`r[14]` (any record with fewer
than 15 fields raises `IndexError`; extra fields beyond position 14 are
never inspected), then produce an observation only when `latitude`,
`longitude`, `time` and `sensor_id` are all truthy and
`status == 'Moving'`, else return `None`. -/
def convert_to_er_observation (r : List Value) (tzMinutes : Int) :
    Except ConvertError (Option ClientObservation) :=
  match r with
  | sensor_id :: subject_name :: asset_model :: org_name :: _unused4 :: time ::
    status :: latitude :: longitude :: distance :: speed :: hdop :: altitude ::
    heading :: description :: _rest =>
    if latitude.truthy && longitude.truthy && time.truthy && sensor_id.truthy then
      if status = Value.vStr "Moving" then
        match parseTimeValue time with
        | .ok dt =>
            .ok (some
              { manufacturer_id := sensor_id
                subject_name := subject_name
                subject_groups := ["Vehicles"]
                subject_subtype := "security_vehicle"
                recorded_at := isoformat dt tzMinutes
                location := { lat := latitude, lon := longitude }
                additional :=
                  { sensor_id := sensor_id
                    asset_model := asset_model
                    org_name := org_name
                    status := status
                    distance := distance
                    speed := speed
                    hdop := hdop
                    altitude := altitude
                    heading := heading
                    description := description } })
        | .error e => .error e
      else .ok none
    else .ok none
  | _ => .error .indexError

/-- The outcome of the HTTP transport call inside `get_observations`: a
successful response whose JSON body is the envelope (`none` models a falsy
body, treated as "no data") and whose `text` is kept for that case, or an
HTTP error status (`response.raise_for_status` raising
`httpx.HTTPStatusError`). -/
inductive TransportOutcome where
  | response (body : Option Envelope) (text : String)
  | errorStatus (status : Nat)
deriving DecidableEq

/-- What `client.get_observations` returns on success: the converted
observation list, or the raw response text when the body was falsy. -/
inductive GetObsResult where
  | observations (l : List ClientObservation)
  | rawText (t : String)
deriving DecidableEq

/-- The `map`/`filter` pipeline over the CSV-round-tripped dataset
(client.py lines 147–150): convert each record, drop the `None` results, a
conversion exception propagates. -/
def convertDataSet (tzMinutes : Int) :
    List (List Value) → Except ConvertError (List ClientObservation)
  | [] => .ok []
  | r :: rest =>
    match convert_to_er_observation r tzMinutes with
    | .error e => .error e
    | .ok none => convertDataSet tzMinutes rest
    | .ok (some o) =>
      match convertDataSet tzMinutes rest with
      | .error e => .error e
      | .ok l => .ok (o :: l)

/-- The query parameters built by `get_observations` (client.py lines
102–110). -/
structure RequestParams where
  requestedPropertiesStr : String
  lastGMTUpdateTime : String
  userName : String
  password : String
deriving DecidableEq

/-- `app/actions/client.py` lines 102–110: the window start is computed
inside the client as `datetime.now(timezone.utc) −
timedelta(hours=request["look_back_window_hours"])` and formatted with
`'%Y-%m-%d %H:%M:%S'`; no other start value enters the request. -/
def buildRequestParams (current_time : NaiveDateTime)
    (look_back_window_hours : Nat) (username password : String) :
    RequestParams :=
  { requestedPropertiesStr := REQUESTED_PROPERTIES
    lastGMTUpdateTime := strftimeYmdHms (subHours current_time look_back_window_hours)
    userName := username
    password := password }

/-- One attempt of `app/actions/client.py`, `get_observations` (lines
98–161), given the transport outcome of its HTTP call: map HTTP status 403
to `GalooliInvalidUserCredentialsException(code=403)`, 404 to
`GalooliGeneralErrorException(code=404)`, any other error status is
re-raised raw; on a parsed envelope map `ResultCode` 1000 / 1101 / other
non-zero to the invalid-credentials / too-many-requests / general
exceptions (the general one is constructed with its default `code=-1` and
a message embedding the vendor code); on `ResultCode == 0` convert the
dataset; a falsy body returns the raw response text. -/
def get_observations_once (transport : TransportOutcome) (gmt_offset : Int) :
    Except ClientError GetObsResult :=
  match transport with
  | .errorStatus st =>
    if st = 403 then .error (.invalidUserCredentials 403 (some "Unauthorized access"))
    else if st = 404 then .error (.generalError 404 (some "Not found"))
    else .error (.httpStatusError st)
  | .response none text => .ok (.rawText text)
  | .response (some env) _ =>
    if env.commonResult.resultCode ≠ 0 then
      let result_description := resultDescriptionOrReject env.commonResult
      if env.commonResult.resultCode = 1000 then
        .error (.invalidUserCredentials 1000 result_description)
      else if env.commonResult.resultCode = 1101 then
        .error (.tooManyRequests 1101 result_description)
      else
        .error (.generalError (-1)
          (some ("General error occurred. Result code: " ++
            toString env.commonResult.resultCode)))
    else
      match convertDataSet (gmt_offset * 60) (csvRoundTrip env.commonResult.dataSet) with
      | .error e => .error (.convertError e)
      | .ok obs => .ok (.observations obs)

/-- Whether an exception is the retryable `GalooliTooManyRequestsException`
(the `on=` predicate of the `stamina.retry` decorator). -/
def isTooManyRequests : ClientError → Bool
  | .tooManyRequests _ _ => true
  | _ => false

/-- The `stamina.retry` loop around `get_observations`: attempt `i` with
`fuel` attempts remaining; a `GalooliTooManyRequestsException` is retried
while attempts remain (the sleeps between attempts — exponential backoff
starting at `wait_initial=4.0` with `wait_jitter=5.0` up to `wait_max=32.0`
— do not affect the returned value and are not modelled); any other
outcome is final. -/
def retryGo (transports : Nat → TransportOutcome) (gmt_offset : Int) :
    Nat → Nat → Except ClientError GetObsResult
  | i, 0 => get_observations_once (transports i) gmt_offset
  | i, fuel + 1 =>
    match get_observations_once (transports i) gmt_offset with
    | .error e =>
      if isTooManyRequests e && decide (0 < fuel) then
        retryGo transports gmt_offset (i + 1) fuel
      else .error e
    | .ok r => .ok r

/-- The total attempt cap of the retry decorator.  `stamina.retry` in
`client.py` sets only the waits, leaving the library's default cap of 10
attempts (the spec: a bounded cap after which `RateLimited` is surfaced as
fatal). -/
def staminaAttempts : Nat := 10

/-- `client.get_observations` with its retry decorator: `transports i` is
the transport outcome of the `i`-th attempt. -/
def get_observations (transports : Nat → TransportOutcome) (gmt_offset : Int) :
    Except ClientError GetObsResult :=
  retryGo transports gmt_offset 0 staminaAttempts

end Client

namespace Handlers

/-- The dict returned by `action_auth`:
`{"valid_credentials": True}`,
`{"valid_credentials": False, "message": ..., "code": ...}`, or
`{"error": True, "status_code": ...}`. -/
inductive AuthResponse where
  | validCredentials
  | invalidCredentials (message : Option String) (code : Int)
  | errorStatus (status_code : Nat)
deriving DecidableEq

/-- `app/actions/handlers.py`, `action_auth` (lines 26–46), as a function
of the outcome of its `client.get_observations` call: the three Galooli
exception classes are caught and turned into
`{"valid_credentials": False, "message": e.message, "code": e.code}`,
`httpx.HTTPStatusError` into `{"error": True, "status_code": ...}`;
success returns `{"valid_credentials": True}`; any other exception (e.g. a
conversion error escaping the client) is not caught and propagates. -/
def action_auth (fetch : Except Client.ClientError Client.GetObsResult) :
    Except Client.ClientError AuthResponse :=
  match fetch with
  | .ok _ => .ok .validCredentials
  | .error (.invalidUserCredentials c m) => .ok (.invalidCredentials m c)
  | .error (.generalError c m) => .ok (.invalidCredentials m c)
  | .error (.tooManyRequests c m) => .ok (.invalidCredentials m c)
  | .error (.httpStatusError st) => .ok (.errorStatus st)
  | .error (.convertError e) => .error (.convertError e)

/-- Modelled from the spec: `generate_batches` is imported from
`app.services.utils`, which is not among this repository's sources.  Spec
§4.4: "observations are grouped into fixed-size batches (200 per batch)".
Fuel-based structural recursion (`l.length` steps always suffice for the
positive batch size 200 the handler uses). -/
def generateBatchesGo (n : Nat) : Nat → List α → List (List α)
  | 0, _ => []
  | _, [] => []
  | fuel + 1, a :: t => (a :: t).take n :: generateBatchesGo n fuel ((a :: t).drop n)

/-- Modelled from the spec: chunk a list into consecutive batches of `n`. -/
def generate_batches (n : Nat) (l : List α) : List (List α) :=
  generateBatchesGo n l.length l

/-- The batch-emission loop of `action_pull_observations` (handlers.py
lines 102–105): send batch `i` to the Gundi sink, accumulate
`observations_extracted += len(response)`; an exception from a send aborts
the loop (and the cycle). -/
def emitBatchesGo (send : Nat → List ErObservation → Except Unit (List String)) :
    Nat → Nat → List (List ErObservation) → Except Unit Nat
  | _, acc, [] => .ok acc
  | i, acc, batch :: rest =>
    match send i batch with
    | .error e => .error e
    | .ok response => emitBatchesGo send (i + 1) (acc + response.length) rest

/-- The batch-emission loop, started with batch index 0 and count 0. -/
def emitBatches (send : Nat → List ErObservation → Except Unit (List String))
    (batches : List (List ErObservation)) : Except Unit Nat :=
  emitBatchesGo send 0 0 batches

/-- The `if observations:` guard of handlers.py lines 97–108: the filter
(and the batch loop) run only when the converted-observation list is
nonempty. -/
def filteredWithStore (devices : Utils.DeviceStore)
    (observations : List ErObservation) :
    List ErObservation × Utils.DeviceStore :=
  if observations.isEmpty then ([], devices)
  else Utils.filter_observations_by_device_status devices observations

/-- An exception aborting `action_pull_observations`: a client exception
(caught, logged and re-raised — handlers.py lines 125–131), a
record-conversion error from the handler's own convert/filter pipeline, or
an exception from `send_observations_to_gundi` (neither is caught by the
handler's `except` clauses). -/
inductive PullError where
  | client (e : Client.ClientError)
  | decode (e : ConvertError)
  | sendFailure
deriving DecidableEq

/-- The observable outcome of one pull cycle: the returned
`observations_extracted` count (or the exception that aborted the cycle),
the final checkpoint state (the `last_updated_time` value held by the
state store for `(integration_id, "pull_observations")`), and the final
device-state store. -/
structure PullOutcome where
  result : Except PullError Nat
  checkpoint : Option String
  devices : Utils.DeviceStore
deriving DecidableEq

/-- `app/actions/handlers.py` lines 58–68: the poll window start is the
parsed checkpoint `last_updated_time` when a checkpoint exists, else
`now − timedelta(hours=look_back_window_hours)`.  (`dateparser` returning
`None` for an unparsable checkpoint makes `.replace` raise; that is
modelled by `none`.) -/
def computeStart (last_updated_time : Option String) (now : NaiveDateTime)
    (look_back_window_hours : Nat) : Option NaiveDateTime :=
  match last_updated_time with
  | none => some (subHours now look_back_window_hours)
  | some s => parseDateTime s

/-- The `map`/`filter` pipeline of handlers.py lines 92–95 over the
CSV-round-tripped dataset, using the 9-field `utils` converter; a
conversion exception propagates. -/
def convertDataSet (tzMinutes : Int) :
    List (List Value) → Except ConvertError (List ErObservation)
  | [] => .ok []
  | r :: rest =>
    match Utils.convert_to_er_observation r tzMinutes with
    | .error e => .error e
    | .ok none => convertDataSet tzMinutes rest
    | .ok (some o) =>
      match convertDataSet tzMinutes rest with
      | .error e => .error e
      | .ok l => .ok (o :: l)

/-- `app/actions/handlers.py`, `action_pull_observations` (lines 50–131),
as a function of the cycle's initial state and the outcomes of its
external calls.  `fetch` is the outcome of the `client.get_observations`
call under the handler's call contract (the handler reads
`['CommonResult']['DataSet']` and `['MaxGmtUpdateTime']` from the return
value; `.ok none` models a falsy response, for which the handler returns
`{"observations_extracted": 0}` without touching any state).  On a parsed
envelope the handler CSV-round-trips the dataset, converts it with
`utils.convert_to_er_observation` and `reports_timezone =
pytz.FixedOffset(gmt_offset * 60)`, filters through the device-status
filter, sends batches of 200, and only then persists
`{"last_updated_time": MaxGmtUpdateTime}`; every exception (client
exception, decode error, send failure) aborts the cycle before that write,
while device-state writes already performed by the filter stand. -/
def action_pull_observations (last_updated_time : Option String)
    (devices : Utils.DeviceStore) (gmt_offset : Int)
    (fetch : Except Client.ClientError (Option Client.Envelope))
    (send : Nat → List ErObservation → Except Unit (List String)) :
    PullOutcome :=
  match fetch with
  | .error e => ⟨.error (.client e), last_updated_time, devices⟩
  | .ok none => ⟨.ok 0, last_updated_time, devices⟩
  | .ok (some env) =>
    match convertDataSet (gmt_offset * 60) (csvRoundTrip env.commonResult.dataSet) with
    | .error e => ⟨.error (.decode e), last_updated_time, devices⟩
    | .ok observations =>
      let fs := filteredWithStore devices observations
      match emitBatches send (generate_batches 200 fs.1) with
      | .error _ => ⟨.error .sendFailure, last_updated_time, fs.2⟩
      | .ok observations_extracted =>
          ⟨.ok observations_extracted, some env.maxGmtUpdateTime, fs.2⟩

end Handlers

/-! ## Helper lemmas -/

namespace Utils

/-- The early-return on an empty observation list coincides with the loop. -/
lemma filter_eq_filterGo (store : DeviceStore) (l : List ErObservation) :
    filter_observations_by_device_status store l = filterGo store l := by
  cases l <;> simp [filter_observations_by_device_status, filterGo]

/-- Reading back the key just written. -/
lemma lookup_setState_self (store : DeviceStore) (k : Value)
    (st : DeviceStatusState) : lookupState (setState store k st) k = some st := by
  simp [setState, lookupState]

/-- Writing one key leaves the others unchanged. -/
lemma lookup_setState_ne (store : DeviceStore) (k k2 : Value)
    (st : DeviceStatusState) (h : k2 ≠ k) :
    lookupState (setState store k2 st) k = lookupState store k := by
  simp [setState, lookupState, h]

/-- The filter loop never creates an entry at a key that is not the source
of one of its observations. -/
lemma filterGo_lookup_none (k : Value) :
    ∀ (obs : List ErObservation) (store : DeviceStore),
      lookupState store k = none → (∀ o ∈ obs, o.source ≠ k) →
      lookupState (filterGo store obs).2 k = none := by
  intro obs
  induction obs with
  | nil => intro store h _; simpa [filterGo] using h
  | cons o rest ih =>
    intro store h hmem
    have ho : o.source ≠ k := hmem o (by simp)
    have hmem2 : ∀ o2 ∈ rest, o2.source ≠ k := fun o2 h2 => hmem o2 (by simp [h2])
    cases hls : lookupState store o.source with
    | none =>
      simp only [filterGo, hls]
      exact ih _ (by rw [lookup_setState_ne _ _ _ _ ho]; exact h) hmem2
    | some ds =>
      by_cases hst : ds.status = o.additional.status
      · simp only [filterGo, hls, hst, if_pos]
        exact ih _ h hmem2
      · simp only [filterGo, hls, if_neg hst]
        exact ih _ (by rw [lookup_setState_ne _ _ _ _ ho]; exact h) hmem2

end Utils

/-! ## Concrete instances used by the claims -/

/-- An ER observation with the quiet status `"off"`, recorded at 10:00. -/
def offObs1 : ErObservation :=
  { source := Value.vStr "s1"
    source_name := Value.vStr "Vehicle1"
    subject_type := "security_vehicle"
    type := "tracking-device"
    recorded_at := "2023-01-01T10:00:00+00:00"
    location := ⟨Value.vInt 40, Value.vInt (-74)⟩
    additional := ⟨Value.vStr "s1", Value.vStr "Org1", Value.vStr "off",
      Value.vInt 100, Value.vInt 0, ["Vehicles"]⟩ }

/-- The same sensor and the same status `"off"`, but a different
`recorded_at` (11:00). -/
def offObs2 : ErObservation :=
  { offObs1 with recorded_at := "2023-01-01T11:00:00+00:00" }

/-- An ER observation with the non-quiet status `"Moving"`. -/
def movingObs : ErObservation :=
  { source := Value.vStr "m1"
    source_name := Value.vStr "Vehicle2"
    subject_type := "security_vehicle"
    type := "tracking-device"
    recorded_at := "2023-01-01T10:00:00+00:00"
    location := ⟨Value.vInt 40, Value.vInt (-74)⟩
    additional := ⟨Value.vStr "m1", Value.vStr "Org1", Value.vStr "Moving",
      Value.vInt 100, Value.vInt 50, ["Vehicles"]⟩ }

/-! ## Claims -/

/-- C1 (counterexample).  The claim says that with stored state of equal
quiet-class status `"off"`, an observation is forwarded exactly when its
`recordedAt` differs from the stored one, and that a secondary
`quiet_period:<status>` entry is refreshed — so two `"off"` observations
with identical status but different `recordedAt` would both be forwarded.
On the code, feeding two such observations through the filter forwards
only the first: the second is suppressed even though its `recordedAt`
differs, and no `quiet_period:off` entry exists afterwards. -/
theorem claim_C1_counterexample :
    (Utils.filter_observations_by_device_status [] [offObs1, offObs2]).1 = [offObs1] ∧
    offObs2 ∉ (Utils.filter_observations_by_device_status [] [offObs1, offObs2]).1 ∧
    Utils.lookupState (Utils.filter_observations_by_device_status [] [offObs1, offObs2]).2
      (Value.vStr "quiet_period:off") = none := by
  refine ⟨by decide, by decide, by decide⟩

/-- C1 (amended).  The filter has no quiet-period branch at all: whenever
the stored status equals the incoming status — quiet class or not,
regardless of `recordedAt` — the observation is suppressed with no state
write, and the filter never creates any state entry (such as a
`quiet_period:<status>` entry) at a key other than an observation's
source. -/
theorem claim_C1_theorem :
    (∀ (store : Utils.DeviceStore) (o : ErObservation) (rest : List ErObservation)
       (ds : Utils.DeviceStatusState),
        Utils.lookupState store o.source = some ds →
        ds.status = o.additional.status →
        Utils.filter_observations_by_device_status store (o :: rest) =
          Utils.filter_observations_by_device_status store rest) ∧
    (∀ (store : Utils.DeviceStore) (obs : List ErObservation) (k : Value),
        Utils.lookupState store k = none →
        (∀ o ∈ obs, o.source ≠ k) →
        Utils.lookupState (Utils.filter_observations_by_device_status store obs).2 k = none) := by
  constructor
  · intro store o rest ds hl hs
    rw [Utils.filter_eq_filterGo, Utils.filter_eq_filterGo]
    simp [Utils.filterGo, hl, hs]
  · intro store obs k h hmem
    rw [Utils.filter_eq_filterGo]
    exact Utils.filterGo_lookup_none k obs store h hmem

/-- C1 (witness): the amended theorem applied at the two `"off"`
observations. -/
theorem claim_C1_witness :
    Utils.filter_observations_by_device_status
        [(Value.vStr "s1", ⟨Value.vStr "off"⟩)] [offObs1, offObs2] =
      Utils.filter_observations_by_device_status
        [(Value.vStr "s1", ⟨Value.vStr "off"⟩)] [offObs2] ∧
    Utils.lookupState
      (Utils.filter_observations_by_device_status [] [offObs1, offObs2]).2
      (Value.vStr "quiet_period:off") = none := by
  constructor
  · exact claim_C1_theorem.1 _ offObs1 [offObs2] ⟨Value.vStr "off"⟩ (by decide) (by decide)
  · exact claim_C1_theorem.2 [] [offObs1, offObs2] _ (by decide) (by decide)

/-- C6.  With stored state equal to the incoming non-quiet status, the
filter suppresses the observation and performs no state write; feeding the
same `(sensorId, status)` pair twice in sequence (fresh device) forwards
the first occurrence and suppresses the second, leaving exactly the one
state write of the first occurrence. -/
theorem claim_C6_theorem :
    (∀ (store : Utils.DeviceStore) (o : ErObservation) (rest : List ErObservation)
       (ds : Utils.DeviceStatusState),
        Utils.lookupState store o.source = some ds →
        ds.status = o.additional.status →
        Utils.isQuietStatus o.additional.status = false →
        Utils.filter_observations_by_device_status store (o :: rest) =
          Utils.filter_observations_by_device_status store rest) ∧
    (∀ (store : Utils.DeviceStore) (o1 o2 : ErObservation),
        Utils.lookupState store o1.source = none →
        o2.source = o1.source →
        o2.additional.status = o1.additional.status →
        Utils.isQuietStatus o1.additional.status = false →
        Utils.filter_observations_by_device_status store [o1, o2] =
          ([o1], Utils.setState store o1.source ⟨o1.additional.status⟩)) := by
  constructor
  · intro store o rest ds hl hs _
    rw [Utils.filter_eq_filterGo, Utils.filter_eq_filterGo]
    simp [Utils.filterGo, hl, hs]
  · intro store o1 o2 hl hsrc hst _
    rw [Utils.filter_eq_filterGo]
    simp [Utils.filterGo, hl, hsrc, hst, Utils.lookup_setState_self]

/-- C6 (witness): the theorem applied at `"Moving"` observations. -/
theorem claim_C6_witness :
    Utils.filter_observations_by_device_status
        [(Value.vStr "m1", ⟨Value.vStr "Moving"⟩)] [movingObs] =
      Utils.filter_observations_by_device_status
        [(Value.vStr "m1", ⟨Value.vStr "Moving"⟩)] [] ∧
    Utils.filter_observations_by_device_status [] [movingObs, movingObs] =
      ([movingObs], Utils.setState [] movingObs.source ⟨movingObs.additional.status⟩) := by
  constructor
  · exact claim_C6_theorem.1 _ movingObs [] ⟨Value.vStr "Moving"⟩ (by decide) (by decide) (by decide)
  · exact claim_C6_theorem.2 [] movingObs movingObs (by decide) rfl rfl (by decide)

/-- The valid 9-field Galooli record of the spec's timezone example:
`gpsTime = "2023-01-01 10:00:00"`, truthy coordinates and sensor id. -/
def galooliExampleRecord : List Value :=
  [Value.vStr "sensor1", Value.vStr "Vehicle1", Value.vStr "Org1",
   Value.vStr "2023-01-01 10:00:00", Value.vStr "Moving",
   Value.vInt 40, Value.vInt (-74), Value.vInt 100, Value.vInt 50]

/-- The observation `utils.convert_to_er_observation` produces from
`galooliExampleRecord` with offset 0. -/
def galooliExampleObs : ErObservation :=
  { source := Value.vStr "sensor1"
    source_name := Value.vStr "Vehicle1"
    subject_type := "security_vehicle"
    type := "tracking-device"
    recorded_at := "2023-01-01T10:00:00+00:00"
    location := ⟨Value.vInt 40, Value.vInt (-74)⟩
    additional := ⟨Value.vStr "sensor1", Value.vStr "Org1", Value.vStr "Moving",
      Value.vInt 100, Value.vInt 50, ["Vehicles"]⟩ }

example : Utils.convert_to_er_observation galooliExampleRecord 0 =
    .ok (some galooliExampleObs) := by decide

/-- C5.  For every raw record (of the schema arity) in which any of
`sensorId`, `latitude`, `longitude` or `gpsTime` is falsy — `None`, empty
string, or zero — both converters return `None` instead of an observation;
in particular a `(0, 0)` coordinate pair is treated as missing.  The
condition is stated exactly as the code's validity gate
`latitude and longitude and time and sensor_id`. -/
theorem claim_C5_theorem :
    (∀ (sensor_id subject_name org_name time status latitude longitude
        distance speed : Value) (tz : Int),
        (latitude.truthy && longitude.truthy && time.truthy && sensor_id.truthy) = false →
        Utils.convert_to_er_observation
          [sensor_id, subject_name, org_name, time, status, latitude,
           longitude, distance, speed] tz = .ok none) ∧
    (∀ (v0 v1 v2 v3 v4 v5 v6 v7 v8 v9 v10 v11 v12 v13 v14 : Value) (tz : Int),
        (v7.truthy && v8.truthy && v5.truthy && v0.truthy) = false →
        Client.convert_to_er_observation
          [v0, v1, v2, v3, v4, v5, v6, v7, v8, v9, v10, v11, v12, v13, v14] tz =
          .ok none) := by
  constructor
  · intro sensor_id subject_name org_name time status latitude longitude
      distance speed tz h
    simp [Utils.convert_to_er_observation, h]
  · intro v0 v1 v2 v3 v4 v5 v6 v7 v8 v9 v10 v11 v12 v13 v14 tz h
    simp [Client.convert_to_er_observation, h]

/-- C5 (witness): a `(0, 0)` coordinate pair makes both converters return
`None`. -/
theorem claim_C5_witness :
    Utils.convert_to_er_observation
      [Value.vStr "sensor1", Value.vStr "Vehicle1", Value.vStr "Org1",
       Value.vStr "2023-01-01 10:00:00", Value.vStr "Moving",
       Value.vInt 0, Value.vInt 0, Value.vInt 100, Value.vInt 50] 0 = .ok none ∧
    Client.convert_to_er_observation
      [Value.vStr "sensor1", Value.vStr "Vehicle1", Value.vStr "Model1",
       Value.vStr "Org1", Value.vStr "extra", Value.vStr "2023-01-01 10:00:00",
       Value.vStr "Moving", Value.vInt 0, Value.vInt 0, Value.vInt 100,
       Value.vInt 50, Value.vInt 1, Value.vInt 100, Value.vInt 90,
       Value.vStr "Test vehicle"] 0 = .ok none := by
  constructor
  · exact claim_C5_theorem.1 _ _ _ _ _ _ _ _ _ 0 (by decide)
  · exact claim_C5_theorem.2 _ _ _ _ _ _ _ _ _ _ _ _ _ _ _ 0 (by decide)

/-- A 16-field record: the 15 schema fields of a valid `"Moving"` record
followed by one extra field. -/
def overlongRecord : List Value :=
  [Value.vStr "sensor1", Value.vStr "Vehicle1", Value.vStr "Model1",
   Value.vStr "Org1", Value.vStr "extra", Value.vStr "2023-01-01 10:00:00",
   Value.vStr "Moving", Value.vInt 40, Value.vInt (-74), Value.vInt 100,
   Value.vInt 50, Value.vInt 1, Value.vInt 100, Value.vInt 90,
   Value.vStr "Test vehicle", Value.vStr "sixteenth-extra-field"]

/-- Whether a conversion result is a produced observation (neither an
exception nor `None`). -/
def isOkSome {e a : Type} : Except e (Option a) → Bool
  | .ok (some _) => true
  | _ => false

/-- C7 (counterexample).  The claim says every arity mismatch raises a
decode error.  The client converter's schema arity is 15, but a 16-field
record does not raise: it is converted to an observation (the extra field
is silently ignored), because the converter subscripts positions 0–14 and
never checks the total arity. -/
theorem claim_C7_counterexample :
    overlongRecord.length ≠ 15 ∧
    isOkSome (Client.convert_to_er_observation overlongRecord 0) = true := by
  refine ⟨by decide, by decide⟩

/-- C7 (amended).  The 9-field `utils` converter does raise (and never
returns `None`) for every arity other than 9; the 15-field `client`
converter raises only for records with fewer than 15 fields — records
with more than 15 fields are accepted with the extra fields ignored. -/
theorem claim_C7_theorem :
    (∀ (r : List Value) (tz : Int), r.length ≠ 9 →
        Utils.convert_to_er_observation r tz = .error .valueError) ∧
    (∀ (r : List Value) (tz : Int), r.length < 15 →
        Client.convert_to_er_observation r tz = .error .indexError) := by
  constructor
  · intro r tz h
    rcases r with _ | ⟨a, _ | ⟨b, _ | ⟨c, _ | ⟨d, _ | ⟨e, _ | ⟨f, _ | ⟨g,
      _ | ⟨h8, _ | ⟨i, _ | ⟨j, rest⟩⟩⟩⟩⟩⟩⟩⟩⟩⟩
    · rfl
    · rfl
    · rfl
    · rfl
    · rfl
    · rfl
    · rfl
    · rfl
    · rfl
    · exact absurd rfl h
    · rfl
  · intro r tz h
    rcases r with _ | ⟨a0, _ | ⟨a1, _ | ⟨a2, _ | ⟨a3, _ | ⟨a4, _ | ⟨a5,
      _ | ⟨a6, _ | ⟨a7, _ | ⟨a8, _ | ⟨a9, _ | ⟨a10, _ | ⟨a11, _ | ⟨a12,
      _ | ⟨a13, _ | ⟨a14, rest⟩⟩⟩⟩⟩⟩⟩⟩⟩⟩⟩⟩⟩⟩⟩
    · rfl
    · rfl
    · rfl
    · rfl
    · rfl
    · rfl
    · rfl
    · rfl
    · rfl
    · rfl
    · rfl
    · rfl
    · rfl
    · rfl
    · rfl
    · exfalso
      simp only [List.length_cons] at h
      omega

/-- C7 (witness): the amended theorem applied at a 3-field record and a
1-field record. -/
theorem claim_C7_witness :
    Utils.convert_to_er_observation
      [Value.vStr "sensor1", Value.vStr "Vehicle1", Value.vStr "Model1"] 0 =
      .error .valueError ∧
    Client.convert_to_er_observation [Value.vStr "sensor1"] 0 =
      .error .indexError := by
  constructor
  · exact claim_C7_theorem.1 _ 0 (by decide)
  · exact claim_C7_theorem.2 _ 0 (by decide)

/-- C8.  Every observation produced by the converter under
`reports_timezone = pytz.FixedOffset(gmt_offset * 60)` has a
`recorded_at` that carries exactly the configured offset of
`gmt_offset * 60` minutes as its suffix; and on the spec's example —
offset 0, input time `"2023-01-01 10:00:00"` — the produced `recorded_at`
contains `"T10:00:00+00:00"`. -/
theorem claim_C8_theorem :
    (∀ (r : List Value) (gmt_offset : Int) (obs : ErObservation),
        Utils.convert_to_er_observation r (gmt_offset * 60) = .ok (some obs) →
        ∃ p, obs.recorded_at = p ++ renderOffset (gmt_offset * 60)) ∧
    (∃ (obs : ErObservation) (p q : String),
        Utils.convert_to_er_observation galooliExampleRecord (0 * 60) =
          .ok (some obs) ∧
        obs.recorded_at = p ++ "T10:00:00+00:00" ++ q) := by
  constructor
  · intro r gmt_offset obs h
    rcases r with _ | ⟨s, _ | ⟨n, _ | ⟨o, _ | ⟨t, _ | ⟨st, _ | ⟨la, _ | ⟨lo,
      _ | ⟨di, _ | ⟨sp, _ | ⟨ex, rest⟩⟩⟩⟩⟩⟩⟩⟩⟩⟩
    · simp [Utils.convert_to_er_observation] at h
    · simp [Utils.convert_to_er_observation] at h
    · simp [Utils.convert_to_er_observation] at h
    · simp [Utils.convert_to_er_observation] at h
    · simp [Utils.convert_to_er_observation] at h
    · simp [Utils.convert_to_er_observation] at h
    · simp [Utils.convert_to_er_observation] at h
    · simp [Utils.convert_to_er_observation] at h
    · simp [Utils.convert_to_er_observation] at h
    · simp only [Utils.convert_to_er_observation] at h
      split at h
      · cases hpt : parseTimeValue t with
        | ok dt =>
          rw [hpt] at h
          refine ⟨isoLocalPart dt, ?_⟩
          have hobs := (Option.some.injEq _ _).mp ((Except.ok.injEq _ _).mp h)
          rw [← hobs]
          rfl
        | error e => rw [hpt] at h; simp at h
      · simp at h
    · simp [Utils.convert_to_er_observation] at h
  · exact ⟨galooliExampleObs, "2023-01-01", "", by decide, by decide⟩

/-- C8 (witness): the theorem applied at the example record with offset 0:
the produced `recorded_at` ends with the rendered zero offset. -/
theorem claim_C8_witness :
    ∃ p, galooliExampleObs.recorded_at = p ++ renderOffset (0 * 60) :=
  claim_C8_theorem.1 galooliExampleRecord 0 galooliExampleObs (by decide)

namespace Client

/-- Envelope result code 1000 classifies as the invalid-credentials
exception. -/
lemma once_envelope_1000 (env : Envelope) (t : String) (off : Int)
    (h : env.commonResult.resultCode = 1000) :
    get_observations_once (.response (some env) t) off =
      .error (.invalidUserCredentials 1000 (resultDescriptionOrReject env.commonResult)) := by
  simp [get_observations_once, h]

/-- Envelope result code 1101 classifies as the too-many-requests
exception. -/
lemma once_envelope_1101 (env : Envelope) (t : String) (off : Int)
    (h : env.commonResult.resultCode = 1101) :
    get_observations_once (.response (some env) t) off =
      .error (.tooManyRequests 1101 (resultDescriptionOrReject env.commonResult)) := by
  simp [get_observations_once, h]

/-- Any other non-zero result code classifies as the general exception,
constructed with its default code −1 and a message embedding the vendor
code. -/
lemma once_envelope_general (env : Envelope) (t : String) (off : Int)
    (h0 : env.commonResult.resultCode ≠ 0)
    (h1 : env.commonResult.resultCode ≠ 1000)
    (h2 : env.commonResult.resultCode ≠ 1101) :
    get_observations_once (.response (some env) t) off =
      .error (.generalError (-1)
        (some ("General error occurred. Result code: " ++
          toString env.commonResult.resultCode))) := by
  simp [get_observations_once, h0, h1, h2]

/-- A non-retryable first-attempt exception is the final outcome of the
retrying `get_observations`, whatever the later attempts would return. -/
lemma get_observations_first_final (transports : Nat → TransportOutcome)
    (off : Int) (e : ClientError)
    (h : get_observations_once (transports 0) off = .error e)
    (hnot : isTooManyRequests e = false) :
    get_observations transports off = .error e := by
  show retryGo transports off 0 10 = .error e
  rw [show (10 : Nat) = 9 + 1 from rfl]
  simp only [retryGo, h, hnot]
  simp

/-- A successful first attempt is the final outcome. -/
lemma get_observations_first_ok (transports : Nat → TransportOutcome)
    (off : Int) (r : GetObsResult)
    (h : get_observations_once (transports 0) off = .ok r) :
    get_observations transports off = .ok r := by
  show retryGo transports off 0 10 = .ok r
  rw [show (10 : Nat) = 9 + 1 from rfl]
  simp only [retryGo, h]

/-- A successful attempt is final, whatever the remaining budget. -/
lemma retryGo_done_ok (transports : Nat → TransportOutcome) (off : Int)
    (i fuel : Nat) (r : GetObsResult)
    (h : get_observations_once (transports i) off = .ok r) :
    retryGo transports off i fuel = .ok r := by
  cases fuel <;> simp [retryGo, h]

/-- A retryable failure with budget remaining moves on to the next
attempt. -/
lemma retryGo_step (transports : Nat → TransportOutcome) (off : Int)
    (i fuel : Nat) (e : ClientError)
    (h : get_observations_once (transports i) off = .error e)
    (he : isTooManyRequests e = true) :
    retryGo transports off i (fuel + 2) = retryGo transports off (i + 1) (fuel + 1) := by
  simp [retryGo, h, he]

/-- A rate-limited first attempt is retried: the second attempt's
successful outcome becomes the final outcome. -/
lemma get_observations_retry_second (transports : Nat → TransportOutcome)
    (off : Int) (env : Envelope) (t : String) (r : GetObsResult)
    (h0 : transports 0 = .response (some env) t)
    (h1101 : env.commonResult.resultCode = 1101)
    (h1 : get_observations_once (transports 1) off = .ok r) :
    get_observations transports off = .ok r := by
  show retryGo transports off 0 (8 + 2) = .ok r
  rw [retryGo_step transports off 0 8
    (.tooManyRequests 1101 (resultDescriptionOrReject env.commonResult))
    (by rw [h0, once_envelope_1101 env t off h1101]) rfl]
  exact retryGo_done_ok transports off 1 9 r h1

/-- If every attempt is answered with a rate-limited envelope, the retry
loop exhausts its attempt budget and surfaces the too-many-requests
exception. -/
lemma retryGo_exhausts (transports : Nat → TransportOutcome) (off : Int)
    (env : Envelope) (t : String)
    (hall : ∀ i, transports i = .response (some env) t)
    (h : env.commonResult.resultCode = 1101) :
    ∀ (fuel i : Nat),
      retryGo transports off i fuel =
        .error (.tooManyRequests 1101 (resultDescriptionOrReject env.commonResult)) := by
  intro fuel
  induction fuel with
  | zero =>
    intro i
    simp only [retryGo, hall i, once_envelope_1101 env t off h]
  | succ fuel ih =>
    intro i
    simp only [retryGo, hall i, once_envelope_1101 env t off h, isTooManyRequests]
    cases fuel with
    | zero => simp
    | succ f2 => simpa using ih (i + 1)

end Client

/-- C4 (counterexample).  The claim says a non-zero result code other than
1000/1101 raises GeneralError "carrying that code".  On the code, a
`ResultCode` of 999 raises `GalooliGeneralErrorException` constructed
without a `code` argument, so its `code` attribute is the default −1, not
999 (the vendor code appears only inside the message string); the
repository's own test asserts `exc_info.value.code == -1`. -/
theorem claim_C4_counterexample :
    Client.get_observations
        (fun _ => .response (some ⟨⟨999, some "General error", none, []⟩, ""⟩) "") 0 =
      .error (.generalError (-1) (some "General error occurred. Result code: 999")) ∧
    (-1 : Int) ≠ 999 := by
  refine ⟨?_, by decide⟩
  exact Client.get_observations_first_final _ 0 _ (by decide) (by decide)

/-- C4 (amended).  `get_observations` classifies vendor failures as the
claim says except for the code carried by GeneralError: envelope result
code 1000 raises the invalid-credentials exception and is never retried
(the outcome is fixed by attempt 0 no matter what later attempts would
return); 1101 raises the rate-limited exception, which is retried (a
successful second attempt becomes the overall outcome) and surfaced only
after the attempt budget is exhausted; any other non-zero code raises the
general exception with its default code −1 and a message embedding the
vendor code; HTTP status 403 raises the invalid-credentials exception with
code 403, 404 raises the general (not-found) exception with code 404, and
any other HTTP error status propagates as the raw transport failure. -/
theorem claim_C4_theorem :
    (∀ (transports : Nat → Client.TransportOutcome) (off : Int) (t : String)
       (env : Client.Envelope),
        transports 0 = .response (some env) t →
        env.commonResult.resultCode = 1000 →
        Client.get_observations transports off =
          .error (.invalidUserCredentials 1000
            (Client.resultDescriptionOrReject env.commonResult))) ∧
    (∀ (transports : Nat → Client.TransportOutcome) (off : Int) (t : String)
       (env : Client.Envelope) (r : Client.GetObsResult),
        transports 0 = .response (some env) t →
        env.commonResult.resultCode = 1101 →
        Client.get_observations_once (transports 1) off = .ok r →
        Client.get_observations transports off = .ok r) ∧
    (∀ (transports : Nat → Client.TransportOutcome) (off : Int) (t : String)
       (env : Client.Envelope),
        (∀ i, transports i = .response (some env) t) →
        env.commonResult.resultCode = 1101 →
        Client.get_observations transports off =
          .error (.tooManyRequests 1101
            (Client.resultDescriptionOrReject env.commonResult))) ∧
    (∀ (transports : Nat → Client.TransportOutcome) (off : Int) (t : String)
       (env : Client.Envelope),
        transports 0 = .response (some env) t →
        env.commonResult.resultCode ≠ 0 →
        env.commonResult.resultCode ≠ 1000 →
        env.commonResult.resultCode ≠ 1101 →
        Client.get_observations transports off =
          .error (.generalError (-1)
            (some ("General error occurred. Result code: " ++
              toString env.commonResult.resultCode)))) ∧
    (∀ (transports : Nat → Client.TransportOutcome) (off : Int),
        transports 0 = .errorStatus 403 →
        Client.get_observations transports off =
          .error (.invalidUserCredentials 403 (some "Unauthorized access"))) ∧
    (∀ (transports : Nat → Client.TransportOutcome) (off : Int),
        transports 0 = .errorStatus 404 →
        Client.get_observations transports off =
          .error (.generalError 404 (some "Not found"))) ∧
    (∀ (transports : Nat → Client.TransportOutcome) (off : Int) (st : Nat),
        transports 0 = .errorStatus st → st ≠ 403 → st ≠ 404 →
        Client.get_observations transports off =
          .error (.httpStatusError st)) := by
  refine ⟨?_, ?_, ?_, ?_, ?_, ?_, ?_⟩
  · intro transports off t env h0 hrc
    refine Client.get_observations_first_final _ _ _ ?_ rfl
    rw [h0, Client.once_envelope_1000 env t off hrc]
  · intro transports off t env r h0 hrc h1
    exact Client.get_observations_retry_second _ _ env t r h0 hrc h1
  · intro transports off t env hall hrc
    exact Client.retryGo_exhausts transports off env t hall hrc 10 0
  · intro transports off t env h0 hrc0 hrc1 hrc2
    refine Client.get_observations_first_final _ _ _ ?_ rfl
    rw [h0, Client.once_envelope_general env t off hrc0 hrc1 hrc2]
  · intro transports off h0
    refine Client.get_observations_first_final _ _ _ ?_ rfl
    rw [h0]
    rfl
  · intro transports off h0
    refine Client.get_observations_first_final _ _ _ ?_ rfl
    rw [h0]
    rfl
  · intro transports off st h0 h403 h404
    refine Client.get_observations_first_final _ _ _ ?_ rfl
    rw [h0]
    simp [Client.get_observations_once, h403, h404]

/-- A 1000-result-code envelope (invalid credentials). -/
def env1000C4 : Client.Envelope := ⟨⟨1000, some "Invalid credentials", none, []⟩, ""⟩

/-- An 1101-result-code envelope (rate limited). -/
def env1101C4 : Client.Envelope := ⟨⟨1101, some "Too many requests", none, []⟩, ""⟩

/-- A successful envelope with an empty dataset. -/
def envOkC4 : Client.Envelope := ⟨⟨0, none, none, []⟩, "2025-06-27 01:56:02"⟩

/-- Every attempt answered with the invalid-credentials envelope. -/
def transports1000 : Nat → Client.TransportOutcome :=
  fun _ => .response (some env1000C4) ""

/-- First attempt rate-limited, later attempts successful. -/
def transportsRetry : Nat → Client.TransportOutcome :=
  fun i => if i = 0 then .response (some env1101C4) "" else .response (some envOkC4) ""

/-- Every attempt answered with the rate-limited envelope. -/
def transports1101 : Nat → Client.TransportOutcome :=
  fun _ => .response (some env1101C4) ""

/-- Every attempt answered with a 999-result-code envelope. -/
def transports999 : Nat → Client.TransportOutcome :=
  fun _ => .response (some ⟨⟨999, some "General error", none, []⟩, ""⟩) ""

/-- Every attempt fails with HTTP status 403. -/
def transports403 : Nat → Client.TransportOutcome := fun _ => .errorStatus 403

/-- Every attempt fails with HTTP status 404. -/
def transports404 : Nat → Client.TransportOutcome := fun _ => .errorStatus 404

/-- Every attempt fails with HTTP status 500. -/
def transports500 : Nat → Client.TransportOutcome := fun _ => .errorStatus 500

/-- C4 (witness): the amended theorem applied at concrete transports for
each branch of the taxonomy. -/
theorem claim_C4_witness :
    Client.get_observations transports1000 0 =
      .error (.invalidUserCredentials 1000 (some "Invalid credentials")) ∧
    Client.get_observations transportsRetry 0 = .ok (.observations []) ∧
    Client.get_observations transports1101 0 =
      .error (.tooManyRequests 1101 (some "Too many requests")) ∧
    Client.get_observations transports999 0 =
      .error (.generalError (-1) (some "General error occurred. Result code: 999")) ∧
    Client.get_observations transports403 0 =
      .error (.invalidUserCredentials 403 (some "Unauthorized access")) ∧
    Client.get_observations transports404 0 =
      .error (.generalError 404 (some "Not found")) ∧
    Client.get_observations transports500 0 = .error (.httpStatusError 500) := by
  refine ⟨?_, ?_, ?_, ?_, ?_, ?_, ?_⟩
  · exact claim_C4_theorem.1 transports1000 0 "" env1000C4 rfl rfl
  · exact claim_C4_theorem.2.1 transportsRetry 0 "" env1101C4 (.observations []) rfl rfl rfl
  · exact claim_C4_theorem.2.2.1 transports1101 0 "" env1101C4 (fun i => rfl) rfl
  · exact claim_C4_theorem.2.2.2.1 transports999 0 ""
      ⟨⟨999, some "General error", none, []⟩, ""⟩ rfl (by decide) (by decide) (by decide)
  · exact claim_C4_theorem.2.2.2.2.1 transports403 0 rfl
  · exact claim_C4_theorem.2.2.2.2.2.1 transports404 0 rfl
  · exact claim_C4_theorem.2.2.2.2.2.2 transports500 0 500 rfl (by decide) (by decide)

/-- C10.  `action_auth` never propagates a Galooli taxonomy exception or
an HTTP status error: a successful fetch returns
`{"valid_credentials": True}`; each of the three Galooli exceptions
returns `{"valid_credentials": False, "message": e.message,
"code": e.code}`; an unclassified HTTP status error returns
`{"error": True, "status_code": ...}`; and for every fetch outcome other
than an (uncaught) conversion error, `action_auth` returns a dict rather
than raising. -/
theorem claim_C10_theorem :
    (∀ r : Client.GetObsResult,
        Handlers.action_auth (.ok r) = .ok .validCredentials) ∧
    (∀ (c : Int) (m : Option String),
        Handlers.action_auth (.error (.invalidUserCredentials c m)) =
          .ok (.invalidCredentials m c)) ∧
    (∀ (c : Int) (m : Option String),
        Handlers.action_auth (.error (.tooManyRequests c m)) =
          .ok (.invalidCredentials m c)) ∧
    (∀ (c : Int) (m : Option String),
        Handlers.action_auth (.error (.generalError c m)) =
          .ok (.invalidCredentials m c)) ∧
    (∀ st : Nat,
        Handlers.action_auth (.error (.httpStatusError st)) =
          .ok (.errorStatus st)) ∧
    (∀ fetch : Except Client.ClientError Client.GetObsResult,
        (∀ e : ConvertError, fetch ≠ .error (.convertError e)) →
        ∃ resp, Handlers.action_auth fetch = .ok resp) := by
  refine ⟨fun r => rfl, fun c m => rfl, fun c m => rfl, fun c m => rfl,
    fun st => rfl, ?_⟩
  intro fetch h
  match fetch with
  | .ok r => exact ⟨.validCredentials, rfl⟩
  | .error (.invalidUserCredentials c m) => exact ⟨_, rfl⟩
  | .error (.generalError c m) => exact ⟨_, rfl⟩
  | .error (.tooManyRequests c m) => exact ⟨_, rfl⟩
  | .error (.httpStatusError st) => exact ⟨_, rfl⟩
  | .error (.convertError e) => exact absurd rfl (h e)

/-- C10 (witness): the catch-all conjunct applied at an HTTP 500 fetch
outcome. -/
theorem claim_C10_witness :
    ∃ resp, Handlers.action_auth (.error (.httpStatusError 500)) = .ok resp :=
  claim_C10_theorem.2.2.2.2.2 (.error (.httpStatusError 500))
    (fun e h => by simp at h)

namespace Handlers

/-- Chunking the empty list gives no batches. -/
lemma generateBatchesGo_nil {α : Type} (n fuel : Nat) :
    generateBatchesGo n fuel ([] : List α) = [] := by
  cases fuel <;> rfl

/-- One chunking step on a nonempty list. -/
lemma generateBatchesGo_cons {α : Type} (n fuel : Nat) (a : α) (t : List α) :
    generateBatchesGo n (fuel + 1) (a :: t) =
      (a :: t).take n :: generateBatchesGo n fuel ((a :: t).drop n) := rfl

/-- A 250-element list chunks under batch size 200 into its first 200
elements and its remaining 50, in that order. -/
lemma generate_batches_250 {α : Type} (l : List α) (h : l.length = 250) :
    generate_batches 200 l = [l.take 200, l.drop 200] := by
  match l, h with
  | [], h => simp at h
  | a :: t, h =>
    show generateBatchesGo 200 (a :: t).length (a :: t) = _
    rw [h]
    rw [show (250 : Nat) = 249 + 1 from rfl, generateBatchesGo_cons]
    have hd : ((a :: t).drop 200).length = 50 := by
      rw [List.length_drop, h]
    rcases hcons : (a :: t).drop 200 with _ | ⟨b, u⟩
    · rw [hcons] at hd
      simp at hd
    · rw [hcons] at hd
      rw [show (249 : Nat) = 248 + 1 from rfl, generateBatchesGo_cons]
      rw [@List.drop_eq_nil_of_le α (b :: u) 200 (by omega),
        @List.take_of_length_le α 200 (b :: u) (by omega), generateBatchesGo_nil]

end Handlers

/-- C2.  The checkpoint is persisted equal to the vendor-reported
`MaxGmtUpdateTime` and only after every batch send has succeeded; a fetch
exception (any of the taxonomy, or an HTTP error) or a failed batch send
makes the cycle raise with the checkpoint (the stored
`last_updated_time`) left unchanged. -/
theorem claim_C2_theorem :
    (∀ (cp : Option String) (dev : Utils.DeviceStore) (g : Int)
       (send : Nat → List ErObservation → Except Unit (List String))
       (e : Client.ClientError),
        Handlers.action_pull_observations cp dev g (.error e) send =
          ⟨.error (.client e), cp, dev⟩) ∧
    (∀ (cp : Option String) (dev : Utils.DeviceStore) (g : Int)
       (send : Nat → List ErObservation → Except Unit (List String))
       (env : Client.Envelope) (obsList : List ErObservation) (n : Nat),
        Handlers.convertDataSet (g * 60) (csvRoundTrip env.commonResult.dataSet) =
          .ok obsList →
        Handlers.emitBatches send
            (Handlers.generate_batches 200 (Handlers.filteredWithStore dev obsList).1) =
          .ok n →
        Handlers.action_pull_observations cp dev g (.ok (some env)) send =
          ⟨.ok n, some env.maxGmtUpdateTime, (Handlers.filteredWithStore dev obsList).2⟩) ∧
    (∀ (cp : Option String) (dev : Utils.DeviceStore) (g : Int)
       (send : Nat → List ErObservation → Except Unit (List String))
       (env : Client.Envelope) (obsList : List ErObservation) (u : Unit),
        Handlers.convertDataSet (g * 60) (csvRoundTrip env.commonResult.dataSet) =
          .ok obsList →
        Handlers.emitBatches send
            (Handlers.generate_batches 200 (Handlers.filteredWithStore dev obsList).1) =
          .error u →
        Handlers.action_pull_observations cp dev g (.ok (some env)) send =
          ⟨.error .sendFailure, cp, (Handlers.filteredWithStore dev obsList).2⟩) := by
  refine ⟨fun cp dev g send e => rfl, ?_, ?_⟩
  · intro cp dev g send env obsList n h1 h2
    simp only [Handlers.action_pull_observations, h1, h2]
  · intro cp dev g send env obsList u h1 h2
    simp only [Handlers.action_pull_observations, h1, h2]

/-- The observation the handler pipeline produces from the
CSV-round-tripped example record (after the round trip every cell is a
string). -/
def csvGalooliObs : ErObservation :=
  { source := Value.vStr "sensor1"
    source_name := Value.vStr "Vehicle1"
    subject_type := "security_vehicle"
    type := "tracking-device"
    recorded_at := "2023-01-01T10:00:00+00:00"
    location := ⟨Value.vStr "40", Value.vStr "-74"⟩
    additional := ⟨Value.vStr "sensor1", Value.vStr "Org1", Value.vStr "Moving",
      Value.vStr "100", Value.vStr "50", ["Vehicles"]⟩ }

/-- A successful envelope whose dataset holds the single example record. -/
def envOneRecord : Client.Envelope :=
  ⟨⟨0, none, none, [galooliExampleRecord]⟩, "2025-06-27 01:56:02"⟩

/-- A sink that accepts every observation of every batch. -/
def sendAcceptAll : Nat → List ErObservation → Except Unit (List String) :=
  fun _ batch => .ok (batch.map (fun _ => "accepted"))

/-- A sink whose every send raises. -/
def sendAlwaysFail : Nat → List ErObservation → Except Unit (List String) :=
  fun _ _ => .error ()

/-- C2 (witness): the theorem applied at a failing fetch (checkpoint
unchanged), a successful empty cycle (checkpoint advanced to the vendor's
`MaxGmtUpdateTime`), and a cycle whose batch send fails (cycle raises,
checkpoint unchanged, the filter's device-state write standing). -/
theorem claim_C2_witness :
    Handlers.action_pull_observations (some "2024-06-27 12:00:00") [] 0
        (.error (.invalidUserCredentials 1000 none)) sendAcceptAll =
      ⟨.error (.client (.invalidUserCredentials 1000 none)),
        some "2024-06-27 12:00:00", []⟩ ∧
    Handlers.action_pull_observations none [] 0 (.ok (some envOkC4)) sendAcceptAll =
      ⟨.ok 0, some "2025-06-27 01:56:02", []⟩ ∧
    Handlers.action_pull_observations (some "2024-06-27 12:00:00") [] 0
        (.ok (some envOneRecord)) sendAlwaysFail =
      ⟨.error .sendFailure, some "2024-06-27 12:00:00",
        [(Value.vStr "sensor1", ⟨Value.vStr "Moving"⟩)]⟩ := by
  refine ⟨?_, ?_, ?_⟩
  · exact claim_C2_theorem.1 (some "2024-06-27 12:00:00") [] 0 sendAcceptAll
      (.invalidUserCredentials 1000 none)
  · exact claim_C2_theorem.2.1 none [] 0 sendAcceptAll envOkC4 [] 0 rfl rfl
  · exact claim_C2_theorem.2.2 (some "2024-06-27 12:00:00") [] 0 sendAlwaysFail
      envOneRecord [csvGalooliObs] () (by decide) (by decide)

/-- C3 (code bug).  The claim's first half holds of the handler: with a
persisted checkpoint the poll window start is the parsed checkpoint time,
without one it is `now − lookBackWindowHours`, and the vendor wire format
renders it with no timezone suffix.  But the claim's second half fails on
`client.get_observations`: the client builds `lastGMTUpdateTime` from its
own `datetime.now() − look_back_window_hours` and never from the start the
handler computed (its signature `(integration, url, request)` does not
even accept the `start=` keyword the handler and the repository's own
tests pass), so with a checkpoint of `2024-06-27 12:00:00`, now
`2025-06-27 02:00:00` and a 4-hour look-back the request carries
`2025-06-26 22:00:00` instead of the window start. -/
theorem claim_C3_theorem :
    Handlers.computeStart (some "2024-06-27 12:00:00") ⟨2025, 6, 27, 2, 0, 0⟩ 4 =
      some ⟨2024, 6, 27, 12, 0, 0⟩ ∧
    Handlers.computeStart none ⟨2025, 6, 27, 2, 0, 0⟩ 4 =
      some (subHours ⟨2025, 6, 27, 2, 0, 0⟩ 4) ∧
    strftimeYmdHms ⟨2024, 6, 27, 12, 0, 0⟩ = "2024-06-27 12:00:00" ∧
    (Client.buildRequestParams ⟨2025, 6, 27, 2, 0, 0⟩ 4 "user" "pass").lastGMTUpdateTime =
      "2025-06-26 22:00:00" ∧
    (Client.buildRequestParams ⟨2025, 6, 27, 2, 0, 0⟩ 4 "user" "pass").lastGMTUpdateTime ≠
      strftimeYmdHms ⟨2024, 6, 27, 12, 0, 0⟩ := by
  refine ⟨by decide, by decide, by decide, by decide, by decide⟩

/-- C9.  250 eligible observations produce exactly two downstream batches
of sizes 200 and 50 in that order; when both sends succeed the emitted
count is the sum of the accepted counts of the two batches; an emitted
count of 250 is only possible if both batch sends succeeded (and their
accepted counts sum to 250); and the cycle's returned
`observations_extracted` is exactly the emission loop's count. -/
theorem claim_C9_theorem :
    (∀ (obs : List ErObservation), obs.length = 250 →
        (Handlers.generate_batches 200 obs).map List.length = [200, 50]) ∧
    (∀ (obs : List ErObservation)
       (send : Nat → List ErObservation → Except Unit (List String))
       (r0 r1 : List String),
        obs.length = 250 →
        send 0 (obs.take 200) = .ok r0 →
        send 1 (obs.drop 200) = .ok r1 →
        Handlers.emitBatches send (Handlers.generate_batches 200 obs) =
          .ok (r0.length + r1.length)) ∧
    (∀ (obs : List ErObservation)
       (send : Nat → List ErObservation → Except Unit (List String)),
        obs.length = 250 →
        Handlers.emitBatches send (Handlers.generate_batches 200 obs) = .ok 250 →
        ∃ r0 r1, send 0 (obs.take 200) = .ok r0 ∧ send 1 (obs.drop 200) = .ok r1 ∧
          r0.length + r1.length = 250) ∧
    (∀ (cp : Option String) (dev : Utils.DeviceStore) (g : Int)
       (env : Client.Envelope)
       (send : Nat → List ErObservation → Except Unit (List String))
       (obsList : List ErObservation) (n : Nat),
        Handlers.convertDataSet (g * 60) (csvRoundTrip env.commonResult.dataSet) =
          .ok obsList →
        Handlers.emitBatches send
            (Handlers.generate_batches 200 (Handlers.filteredWithStore dev obsList).1) =
          .ok n →
        (Handlers.action_pull_observations cp dev g (.ok (some env)) send).result =
          .ok n) := by
  refine ⟨?_, ?_, ?_, ?_⟩
  · intro obs h
    rw [Handlers.generate_batches_250 obs h]
    simp [List.length_take, List.length_drop, h]
  · intro obs send r0 r1 h hs0 hs1
    rw [Handlers.generate_batches_250 obs h]
    simp only [Handlers.emitBatches, Handlers.emitBatchesGo, hs0, hs1]
    simp
  · intro obs send h hemit
    rw [Handlers.generate_batches_250 obs h] at hemit
    simp only [Handlers.emitBatches, Handlers.emitBatchesGo] at hemit
    cases hs0 : send 0 (obs.take 200) with
    | error e => rw [hs0] at hemit; simp at hemit
    | ok r0 =>
      rw [hs0] at hemit
      cases hs1 : send 1 (obs.drop 200) with
      | error e => rw [hs1] at hemit; simp at hemit
      | ok r1 =>
        rw [hs1] at hemit
        simp at hemit
        exact ⟨r0, r1, rfl, rfl, by omega⟩
  · intro cp dev g env send obsList n h1 h2
    simp only [Handlers.action_pull_observations, h1, h2]

/-- 250 eligible observations (distinctness is irrelevant to batching). -/
def obsListC9 : List ErObservation := List.replicate 250 galooliExampleObs

/-- C9 (witness): the theorem applied at 250 concrete observations with a
sink that accepts everything, and at an empty successful cycle. -/
theorem claim_C9_witness :
    (Handlers.generate_batches 200 obsListC9).map List.length = [200, 50] ∧
    Handlers.emitBatches sendAcceptAll (Handlers.generate_batches 200 obsListC9) =
      .ok 250 ∧
    (∃ r0 r1, sendAcceptAll 0 (obsListC9.take 200) = .ok r0 ∧
      sendAcceptAll 1 (obsListC9.drop 200) = .ok r1 ∧
      r0.length + r1.length = 250) ∧
    (Handlers.action_pull_observations none [] 0 (.ok (some envOkC4))
        sendAcceptAll).result = .ok 0 := by
  have hlen : obsListC9.length = 250 := by
    rw [show obsListC9 = List.replicate 250 galooliExampleObs from rfl,
      List.length_replicate]
  have hlens : ((obsListC9.take 200).map (fun _ => "accepted")).length +
      ((obsListC9.drop 200).map (fun _ => "accepted")).length = 250 := by
    rw [List.length_map, List.length_map, List.length_take, List.length_drop, hlen]
    omega
  have hemit : Handlers.emitBatches sendAcceptAll
      (Handlers.generate_batches 200 obsListC9) = .ok 250 := by
    have h := claim_C9_theorem.2.1 obsListC9 sendAcceptAll
      ((obsListC9.take 200).map (fun _ => "accepted"))
      ((obsListC9.drop 200).map (fun _ => "accepted")) hlen rfl rfl
    rw [hlens] at h
    exact h
  refine ⟨claim_C9_theorem.1 obsListC9 hlen, hemit, ?_, ?_⟩
  · exact claim_C9_theorem.2.2.1 obsListC9 sendAcceptAll hlen hemit
  · exact claim_C9_theorem.2.2.2 none [] 0 envOkC4 sendAcceptAll [] 0 rfl rfl
